/-
  Verification of the context-retrieval-and-composition pipeline of the
  Cohere_THA chat service.

  The Python source is shallowly embedded: each service method becomes a pure
  Lean function; outcomes of external HTTP calls (Wikipedia search, Wikipedia
  summary fetch, Cohere generation, database commit) are passed in explicitly
  as oracle values, so that every control-flow branch of the source (success,
  non-200 status, raised exception, missing JSON field) is represented by a
  constructor the functions pattern-match on, exactly mirroring the Python
  try/except and `if` structure.

  Sources embedded:
    app/services/wikipedia.py      (WikipediaService)
    app/services/cohere_client.py  (CohereService)
    app/schemas/chat.py            (QueryRequest validation)
    app/api/v1/chat.py             (chat_endpoint)
    app/api/v1/debug.py            (health_check)
-/
import Mathlib

namespace CohereTHA

/-- One raw item of the MediaWiki search response: `item["title"]` and
`item.get("snippet", "")` as consumed by `_extract_article_content`. -/
structure WikiSearchItem where
  title : String
  snippet : String
deriving Repr, DecidableEq

/-- Fields of the parsed JSON body of a Wikipedia summary response that the
code reads: `summary_data.get("extract", ...)` and
`summary_data.get("content_urls", {}).get("desktop", {}).get("page", ...)`.
`none` models an absent field. -/
structure SummaryData where
  extract : Option String
  pageUrl : Option String
deriving Repr, DecidableEq

/-- Outcome of the HTTP GET performed by `_get_article_summary` for one title:
either the request (or JSON decoding) raised an exception, or a response with
a status code and (when the code reads it) a parsed body came back. -/
inductive SummaryOutcome where
  | exn (msg : String)
  | resp (status : Nat) (data : SummaryData)
deriving Repr, DecidableEq

/-- The dictionary `{"title", "content", "url"}` built by the Wikipedia
service for each processed article. -/
structure WikiResult where
  title : String
  content : String
  url : String
deriving Repr, DecidableEq

/-- The part of the MediaWiki search JSON the code reads:
`search_data["query"]["search"]` when present (`none` models the case where
the `"query"`/`"search"` keys are absent). -/
structure SearchData where
  searchList : Option (List WikiSearchItem)
deriving Repr, DecidableEq

/-- Outcome of the search HTTP GET in `_perform_search`: an exception (raised
by `requests.get`, by `raise_for_status` on a non-2xx status, or by JSON
decoding) or a successfully parsed body. -/
inductive SearchOutcome where
  | exn (msg : String)
  | ok (data : SearchData)
deriving Repr, DecidableEq

/-- Outcome of one `self.client.chat(...)` call to the Cohere API: an
exception, or a response whose `.text` field is the given string. -/
inductive GenOutcome where
  | exn (msg : String)
  | ok (text : String)
deriving Repr, DecidableEq

/-! ## WikipediaService (app/services/wikipedia.py) -/

/-- Left-to-right, non-overlapping replacement of every occurrence of
`pattern` by `repl`, the semantics of Python `str.replace`. The fuel
argument (always called with the input length, which bounds the number of
loop steps) keeps the recursion structural. The empty-pattern branch is
never exercised by this code base, whose patterns are fixed non-empty
literals. -/
def replaceChars (pattern repl : List Char) : Nat → List Char → List Char
  | _, [] => []
  | 0, l => l
  | fuel + 1, c :: rest =>
    if pattern.isEmpty then c :: rest
    else if pattern.isPrefixOf (c :: rest) then
      repl ++ replaceChars pattern repl fuel ((c :: rest).drop pattern.length)
    else c :: replaceChars pattern repl fuel rest

/-- Embedding of Python `s.replace(pattern, repl)`. -/
def pyReplace (s pattern repl : String) : String :=
  String.mk (replaceChars pattern.data repl.data s.data.length s.data)

/-- Embedding of `_clean_snippet`: strips the one literal search-highlight
marker pair. -/
def clean_snippet (snippet : String) : String :=
  pyReplace (pyReplace snippet "<span class=\"searchmatch\">" "") "</span>" ""

/-- Embedding of `_get_article_summary`. `.error` models the method raising
(the `requests.get` or `.json()` call threw); `.ok none` models the
`status_code != 200` early return of `None`; `.ok (some r)` is the dictionary
built from the parsed body, with `""` defaults for absent fields. -/
def get_article_summary (title : String) (o : SummaryOutcome) :
    Except String (Option WikiResult) :=
  match o with
  | .exn m => .error m
  | .resp status data =>
    if status ≠ 200 then .ok none
    else .ok (some { title := title
                     content := data.extract.getD ""
                     url := data.pageUrl.getD "" })

/-- Embedding of `_create_fallback_result`. -/
def create_fallback_result (title snippet : String) : WikiResult :=
  { title := title
    content := snippet
    url := "https://en.wikipedia.org/wiki/" ++ pyReplace title " " "_" }

/-- Per-item body of the loop in `_extract_article_content`: clean the
snippet, try the summary; on an exception or a `None` summary
(Python `if article_content:` — the built dictionary is always truthy),
fall back to the snippet result. `fetch` gives the HTTP outcome per title. -/
def resolveHit (fetch : String → SummaryOutcome) (item : WikiSearchItem) :
    WikiResult :=
  let snippet := clean_snippet item.snippet
  match get_article_summary item.title (fetch item.title) with
  | .error _ => create_fallback_result item.title snippet
  | .ok none => create_fallback_result item.title snippet
  | .ok (some article) => article

/-- Embedding of `_extract_article_content`: the loop appends one result per
search item. -/
def extract_article_content (fetch : String → SummaryOutcome)
    (searchResults : List WikiSearchItem) : List WikiResult :=
  searchResults.map (resolveHit fetch)

/-- Embedding of `_perform_search`: propagates exceptions (`.error`), returns
`[]` when the expected `"query"/"search"` fields are absent, otherwise
processes the hit list. -/
def perform_search (fetch : String → SummaryOutcome) (o : SearchOutcome) :
    Except String (List WikiResult) :=
  match o with
  | .exn m => .error m
  | .ok data =>
    match data.searchList with
    | none => .ok []
    | some items => .ok (extract_article_content fetch items)

/-- Embedding of `search_wikipedia`: every exception from `_perform_search`
is caught and turned into `[]`. `searchOracle` gives the HTTP outcome of the
search request for a given query and limit. -/
def search_wikipedia (fetch : String → SummaryOutcome)
    (searchOracle : String → Nat → SearchOutcome)
    (query : String) (limit : Nat) : List WikiResult :=
  match perform_search fetch (searchOracle query limit) with
  | .error _ => []
  | .ok results => results

/-! ## CohereService (app/services/cohere_client.py) -/

/-- Value of `settings.default_max_tokens` (app/core/config.py). -/
def default_max_tokens : Int := 300

/-- Value of `settings.default_temperature` (app/core/config.py), modelled as
a rational. -/
def default_temperature : Rat := 7/10

/-- Embedding of `_prepare_message`. Python truthiness of
`if wikipedia_context:` maps `None` and `""` to the raw query; any non-empty
context produces the fixed f-string template. -/
def prepare_message (query : String) (wikipedia_context : Option String) :
    String :=
  match wikipedia_context with
  | none => query
  | some ctx =>
    if ctx = "" then query
    else
      "Based on the following Wikipedia information, please answer the user\x27s question comprehensively and mention that you\x27re using Wikipedia sources:\n\nWikipedia Context:\n"
        ++ ctx
        ++ "\n\nUser Question: " ++ query
        ++ "\n\nPlease provide a detailed answer using the Wikipedia information provided above. Start your response by acknowledging that you found relevant information from Wikipedia."

/-- The truncation expression of `format_wikipedia_context`:
`content[:800] + "..." if len(content) > 800 else content`. -/
def truncateContent (content : String) : String :=
  if content.length > 800 then content.take 800 ++ "..." else content

/-- The per-article rendering appended to `context_parts`:
`f"Wikipedia Article: \x7btitle\x7d\n\x7btruncated_content\x7d"`. The source reads the
fields via `result.get("title", "Unknown")` and `result.get("content", "")`;
both keys are always present on the dictionaries the Wikipedia service
builds, so the defaults never apply. -/
def renderArticle (result : WikiResult) : String :=
  "Wikipedia Article: " ++ result.title ++ "\n" ++ truncateContent result.content

/-- Embedding of `format_wikipedia_context`: empty input gives `""`,
otherwise the per-article renderings joined by `"\n\n"`. -/
def format_wikipedia_context (wikipedia_results : List WikiResult) : String :=
  match wikipedia_results with
  | [] => ""
  | results => String.intercalate "\n\n" (results.map renderArticle)

/-- Embedding of `generate_response`. `genOracle` gives, per (message,
max_tokens, temperature) triple, the outcome of the `self.client.chat(...)`
call. The `except`/`raise` re-raises every provider exception (`.error`); a
successful call returns `response.text` unchanged. -/
def generate_response (genOracle : String → Int → Rat → GenOutcome)
    (query : String) (max_tokens : Option Int) (temperature : Option Rat)
    (wikipedia_context : Option String) : Except String String :=
  let mt := max_tokens.getD default_max_tokens
  let tp := temperature.getD default_temperature
  let message := prepare_message query wikipedia_context
  match genOracle message mt tp with
  | .exn m => .error m
  | .ok text => .ok text

/-! ## Request validation (app/schemas/chat.py, class QueryRequest) -/

/-- A request body before validation, as the four JSON fields arrive.
`temperature` is modelled as a rational: the pydantic bound checks are exact
order comparisons, which `Rat` represents faithfully. -/
structure RawRequest where
  query : String
  max_tokens : Int
  temperature : Rat
  use_wikipedia : Bool
deriving Repr, DecidableEq

/-- A validated request: the pydantic `QueryRequest` model after field
constraints and the `validate_query` stripping validator ran, so `query`
holds the stripped string. -/
structure QueryRequest where
  query : String
  max_tokens : Int
  temperature : Rat
  use_wikipedia : Bool
deriving Repr, DecidableEq

/-- Embedding of pydantic validation of `QueryRequest`: the `Field`
constraints `min_length=1`, `max_length=2000`, `ge=1`, `le=2000`, `ge=0.0`,
`le=1.0`, then the `validate_query` validator which rejects
whitespace-only queries and strips the accepted ones. -/
def validateQueryRequest (r : RawRequest) : Except String QueryRequest :=
  if r.query.length < 1 then .error "query: ensure this value has at least 1 characters"
  else if r.query.length > 2000 then .error "query: ensure this value has at most 2000 characters"
  else if ¬ (1 ≤ r.max_tokens ∧ r.max_tokens ≤ 2000) then .error "max_tokens: out of range"
  else if ¬ (0 ≤ r.temperature ∧ r.temperature ≤ 1) then .error "temperature: out of range"
  else if r.query.trim = "" then .error "Query cannot be empty or just whitespace"
  else .ok { query := r.query.trim
             max_tokens := r.max_tokens
             temperature := r.temperature
             use_wikipedia := r.use_wikipedia }

/-! ## Chat endpoint (app/api/v1/chat.py, chat_endpoint) -/

/-- The pydantic `QueryResponse` body returned by the endpoint. Timestamps
are abstracted to a natural number supplied by the environment. -/
structure QueryResponse where
  response : String
  query : String
  wikipedia_sources : List String
  timestamp : Nat
deriving Repr, DecidableEq

/-- One row of the `chat_history` table (app/models/chat.py, ChatHistory):
the endpoint stores `temperature` and `use_wikipedia` stringified
(`str(request.temperature)` / `str(request.use_wikipedia)`). -/
structure ChatHistoryRow where
  query : String
  response : String
  wikipedia_sources : List String
  timestamp : Nat
  max_tokens : Int
  temperature : String
  use_wikipedia : String
deriving Repr, DecidableEq

/-- One external interaction performed by the endpoint, recorded in order. -/
inductive ExtCall where
  | search (query : String) (limit : Nat)
  | generate (message : String) (max_tokens : Int) (temperature : Rat)
  | dbSave
deriving Repr, DecidableEq

/-- The environment of one request: the outcome of every external call the
handler might make, plus the clock. `dbSaveOk` tells whether the
`db.add`/`db.commit` block succeeds or raises. -/
structure Env where
  searchOracle : String → Nat → SearchOutcome
  summaryOracle : String → SummaryOutcome
  genOracle : String → Int → Rat → GenOutcome
  dbSaveOk : Bool
  now : Nat

/-- What one call of the handler produced: the HTTP-level result (an
`HTTPException` detail string or the response body), the ordered external
calls that were made, and the rows actually committed to the database. -/
structure ChatOutcome where
  result : Except String QueryResponse
  calls : List ExtCall
  saved : List ChatHistoryRow
deriving Repr

/-- The `wiki_results` local of `chat_endpoint`: `[]` unless
`request.use_wikipedia`, else the degraded-never-failing search with the
hard-coded `limit=2`. -/
def wikiResultsOf (env : Env) (req : QueryRequest) : List WikiResult :=
  if req.use_wikipedia then
    search_wikipedia env.summaryOracle env.searchOracle req.query 2
  else []

/-- The `wikipedia_sources` local of `chat_endpoint`:
`[result.get("url", "") for result in wiki_results if result.get("url")]` —
the urls of the results, empty ones filtered out by Python truthiness. -/
def sourcesOf (env : Env) (req : QueryRequest) : List String :=
  ((wikiResultsOf env req).map WikiResult.url).filter (fun u => u != "")

/-- The `wikipedia_context` local of `chat_endpoint`: `None` unless Wikipedia
is enabled and the search returned a non-empty result list. -/
def contextOf (env : Env) (req : QueryRequest) : Option String :=
  if req.use_wikipedia then
    match wikiResultsOf env req with
    | [] => none
    | results => some (format_wikipedia_context results)
  else none

/-- The message `generate_response` passes to the Cohere client for this
request. -/
def genMessageOf (env : Env) (req : QueryRequest) : String :=
  prepare_message req.query (contextOf env req)

/-- Embedding of `chat_endpoint` on a validated request. The Wikipedia
branch never fails (by construction of `search_wikipedia`); a generation
exception reaches the outer `except` and becomes the HTTP 500 detail
`"Error processing request: ..."` with no database write; on success the
response object is built first, then the save is attempted inside its own
`try`, whose failure is swallowed (`db.rollback()`, continue) so the
already-built response is returned either way. -/
def chat_endpoint (env : Env) (req : QueryRequest) : ChatOutcome :=
  let sources := sourcesOf env req
  let ctx := contextOf env req
  let searchCalls : List ExtCall :=
    if req.use_wikipedia then [.search req.query 2] else []
  let message := prepare_message req.query ctx
  match generate_response env.genOracle req.query (some req.max_tokens)
      (some req.temperature) ctx with
  | .error e =>
    { result := .error ("Error processing request: " ++ e)
      calls := searchCalls ++ [.generate message req.max_tokens req.temperature]
      saved := [] }
  | .ok text =>
    let chatResponse : QueryResponse :=
      { response := text
        query := req.query
        wikipedia_sources := sources
        timestamp := env.now }
    { result := .ok chatResponse
      calls := searchCalls ++ [.generate message req.max_tokens req.temperature, .dbSave]
      saved :=
        if env.dbSaveOk then
          [{ query := req.query
             response := text
             wikipedia_sources := sources
             timestamp := env.now
             max_tokens := req.max_tokens
             temperature := toString req.temperature
             use_wikipedia := toString req.use_wikipedia }]
        else [] }

/-- FastAPI boundary: pydantic validation runs before the handler body, so an
invalid body is rejected with a 422 and the handler — hence every external
call — is never reached. -/
def handleChat (env : Env) (raw : RawRequest) : ChatOutcome :=
  match validateQueryRequest raw with
  | .error e => { result := .error ("Validation error: " ++ e), calls := [], saved := [] }
  | .ok req => chat_endpoint env req

/-! ## Health endpoint (app/api/v1/debug.py, health_check) -/

/-- Outcome of the `db.query(ChatHistory).count()` probe. -/
inductive DbProbe where
  | exn (msg : String)
  | ok (count : Nat)
deriving Repr, DecidableEq

/-- The `HealthCheckResponse` pydantic model (app/schemas/chat.py):
`total_conversations` is declared `int`, so the body can only ever hold an
integer there. -/
structure HealthCheckResponse where
  status : String
  service : String
  total_conversations : Int
  database_status : String
  features : List (String × Bool)
deriving Repr, DecidableEq

/-- The static `features` dictionary of the health response. -/
def healthFeatures : List (String × Bool) :=
  [("wikipedia_integration", true), ("chat_history", true),
   ("tool_calling", true), ("postgresql_storage", true)]

/-- Decimal value of a digit string, structurally over the characters. -/
def digitsToNat (l : List Char) : Nat :=
  l.foldl (fun acc c => acc * 10 + (c.toNat - 48)) 0

/-- Lax string-to-integer coercion: an optional leading minus sign followed
by one or more digits yields the spelled integer, anything else fails. -/
def strToIntCoerce (s : String) : Option Int :=
  match s.data with
  | [] => none
  | c :: rest =>
    if c = Char.ofNat 45 then
      if !rest.isEmpty && rest.all Char.isDigit then
        some (-(digitsToNat rest : Int))
      else none
    else if (c :: rest).all Char.isDigit then
      some ((digitsToNat (c :: rest) : Int))
    else none

/-- Pydantic validation of the `total_conversations: int` field at
`HealthCheckResponse(...)` construction time, for the two value shapes the
handler can pass: an `int` is accepted; a `str` is coerced only when it
spells an integer, otherwise construction raises a `ValidationError`. -/
def validateTotalConversations (v : Sum String Nat) : Except String Int :=
  match v with
  | .inr n => .ok (n : Int)
  | .inl s =>
    match strToIntCoerce s with
    | some n => .ok n
    | none =>
      .error ("total_conversations: Input should be a valid integer, got " ++ s)

/-- Embedding of `health_check` including the pydantic model construction:
the `try` sets the count and `"connected"`, the `except` sets the string
`"unknown"` and `f"error: ..."`; the handler then constructs
`HealthCheckResponse(status="healthy", ...)`, whose `int`-typed
`total_conversations` field validates the passed value — when it cannot be
coerced the construction raises a `ValidationError` out of the unprotected
handler body (an HTTP 500), and no response body is produced. -/
def health_check (probe : DbProbe) : Except String HealthCheckResponse :=
  let (total, dbStatus) :=
    match probe with
    | .ok n => (Sum.inr n, "connected")
    | .exn e => (Sum.inl "unknown", "error: " ++ e)
  match validateTotalConversations total with
  | .error e => .error e
  | .ok n =>
    .ok { status := "healthy"
          service := "cohere-chat-api-with-wikipedia-postgresql"
          total_conversations := n
          database_status := dbStatus
          features := healthFeatures }

/-! ## Concrete fixtures used to instantiate the theorems -/

/-- Environment where every external call succeeds: one search hit, a full
summary, and a fixed generation answer. -/
def okEnv : Env :=
  { searchOracle := fun _ _ => .ok ⟨some [⟨"Quantum computing", "snip"⟩]⟩
    summaryOracle := fun _ =>
      .resp 200 ⟨some "Quantum article text",
                 some "https://en.wikipedia.org/wiki/Quantum_computing"⟩
    genOracle := fun _ _ _ => .ok "Quantum computing is..."
    dbSaveOk := true
    now := 42 }

/-- Environment whose generation call raises. -/
def failGenEnv : Env :=
  { okEnv with genOracle := fun _ _ _ => .exn "auth error" }

/-- Environment whose generation call succeeds with empty text. -/
def emptyGenEnv : Env :=
  { okEnv with genOracle := fun _ _ _ => .ok "" }

/-- Environment where the summary fetch returns 200 with an extract but no
`content_urls`, so the built url is `""`. -/
def emptyUrlEnv : Env :=
  { okEnv with
    searchOracle := fun _ _ => .ok ⟨some [⟨"T", "s"⟩]⟩
    summaryOracle := fun _ => .resp 200 ⟨some "x", none⟩ }

/-- A validated request with Wikipedia disabled. -/
def noWikiReq : QueryRequest := ⟨"hello", 300, 1, false⟩

/-- A validated request with Wikipedia enabled. -/
def wikiReq : QueryRequest := ⟨"hello", 300, 1, true⟩

/-- A 900-character article content, used to exercise truncation. -/
def longContent : String := String.mk (List.replicate 900 'a')

/-! ## Helper lemmas -/

/-- Unfolding of `chat_endpoint` when the generation call raises. -/
theorem chat_endpoint_gen_exn (env : Env) (req : QueryRequest) (msg : String)
    (hgen : env.genOracle (genMessageOf env req) req.max_tokens req.temperature
      = .exn msg) :
    chat_endpoint env req =
      { result := .error ("Error processing request: " ++ msg)
        calls := (if req.use_wikipedia then [.search req.query 2] else []) ++
          [.generate (genMessageOf env req) req.max_tokens req.temperature]
        saved := [] } := by
  have hmsg : prepare_message req.query (contextOf env req) =
      genMessageOf env req := rfl
  simp only [chat_endpoint, generate_response, Option.getD, hmsg, hgen]

/-- Unfolding of `chat_endpoint` when the generation call succeeds. -/
theorem chat_endpoint_gen_ok (env : Env) (req : QueryRequest) (txt : String)
    (hgen : env.genOracle (genMessageOf env req) req.max_tokens req.temperature
      = .ok txt) :
    chat_endpoint env req =
      { result := .ok { response := txt
                        query := req.query
                        wikipedia_sources := sourcesOf env req
                        timestamp := env.now }
        calls := (if req.use_wikipedia then [.search req.query 2] else []) ++
          [.generate (genMessageOf env req) req.max_tokens req.temperature,
           .dbSave]
        saved := if env.dbSaveOk then
            [{ query := req.query
               response := txt
               wikipedia_sources := sourcesOf env req
               timestamp := env.now
               max_tokens := req.max_tokens
               temperature := toString req.temperature
               use_wikipedia := toString req.use_wikipedia }]
          else [] } := by
  have hmsg : prepare_message req.query (contextOf env req) =
      genMessageOf env req := rfl
  simp only [chat_endpoint, generate_response, Option.getD, hmsg, hgen]

/-! ## Claims -/

/-- C1. For a validated request with `use_wikipedia = false`, the context is
`None`, the message handed to the generation client is exactly the validated
query string, every generate call in the trace carries that raw query, and a
successful response carries an empty `wikipedia_sources` list. -/
theorem no_context_prompt_is_raw_query (env : Env) (req : QueryRequest)
    (h : req.use_wikipedia = false) :
    contextOf env req = none ∧
    genMessageOf env req = req.query ∧
    (∀ m mt tp, ExtCall.generate m mt tp ∈ (chat_endpoint env req).calls →
      m = req.query) ∧
    (∀ resp, (chat_endpoint env req).result = .ok resp →
      resp.wikipedia_sources = []) := by
  have hctx : contextOf env req = none := by simp [contextOf, h]
  have hmsg : genMessageOf env req = req.query := by
    simp [genMessageOf, hctx, prepare_message]
  have hsrc : sourcesOf env req = [] := by
    simp [sourcesOf, wikiResultsOf, h]
  refine ⟨hctx, hmsg, ?_, ?_⟩
  · intro m mt tp hm
    rcases hgen : env.genOracle (prepare_message req.query (contextOf env req))
        req.max_tokens req.temperature with msg | txt <;>
      simp [chat_endpoint, h, generate_response, hgen, Option.getD] at hm <;>
      simp [hm.1, hctx, prepare_message]
  · intro resp hresp
    rcases hgen : env.genOracle (prepare_message req.query (contextOf env req))
        req.max_tokens req.temperature with msg | txt <;>
      simp [chat_endpoint, generate_response, hgen, Option.getD] at hresp
    rw [← hresp]
    exact hsrc

/-- C1 witness: the hypotheses hold at a concrete environment and request. -/
theorem no_context_prompt_is_raw_query_witness :
    contextOf okEnv noWikiReq = none ∧
    genMessageOf okEnv noWikiReq = noWikiReq.query :=
  ⟨(no_context_prompt_is_raw_query okEnv noWikiReq rfl).1,
   (no_context_prompt_is_raw_query okEnv noWikiReq rfl).2.1⟩

/-- C2. Per-article rendering in the composed context: content longer than
800 characters is rendered as exactly its first 800 characters followed by
the literal `"..."`; content of at most 800 characters is rendered whole
with nothing appended; and the composed context of a non-empty article list
is exactly the renderings joined by blank lines. -/
theorem article_truncation_at_800 (r : WikiResult) :
    (800 < r.content.length →
      renderArticle r =
        "Wikipedia Article: " ++ r.title ++ "\n" ++ (r.content.take 800 ++ "...")) ∧
    (r.content.length ≤ 800 →
      renderArticle r = "Wikipedia Article: " ++ r.title ++ "\n" ++ r.content) ∧
    (∀ results : List WikiResult, results ≠ [] →
      format_wikipedia_context results =
        String.intercalate "\n\n" (results.map renderArticle)) := by
  refine ⟨?_, ?_, ?_⟩
  · intro h
    simp [renderArticle, truncateContent, h, String.append_assoc]
  · intro h
    simp [renderArticle, truncateContent, Nat.not_lt.mpr h]
  · intro results hne
    cases results with
    | nil => exact absurd rfl hne
    | cons a l => rfl

set_option maxRecDepth 4000 in
/-- C2 witness: truncation at a 900-character content and identity at a
3-character content. -/
theorem article_truncation_at_800_witness :
    renderArticle ⟨"T", longContent, "u"⟩ =
      "Wikipedia Article: " ++ "T" ++ "\n" ++ (longContent.take 800 ++ "...") ∧
    renderArticle ⟨"T", "abc", "u"⟩ =
      "Wikipedia Article: " ++ "T" ++ "\n" ++ "abc" ∧
    format_wikipedia_context [⟨"T", "abc", "u"⟩] =
      String.intercalate "\n\n" ([(⟨"T", "abc", "u"⟩ : WikiResult)].map renderArticle) :=
  ⟨(article_truncation_at_800 ⟨"T", longContent, "u"⟩).1 (by decide),
   (article_truncation_at_800 ⟨"T", "abc", "u"⟩).2.1 (by decide),
   (article_truncation_at_800 ⟨"T", "abc", "u"⟩).2.2 [⟨"T", "abc", "u"⟩] (by decide)⟩

/-- C3 counterexample: a 200 summary response whose body lacks the
`extract` field does NOT produce the snippet fallback — the built summary
dictionary (content `""`) is truthy and is kept, so the resolved content is
`""` and not the hit's cleaned snippet `"snip"`. -/
theorem missing_extract_keeps_summary_cex :
    resolveHit (fun _ => .resp 200 ⟨none, none⟩) ⟨"T", "snip"⟩ ≠
      create_fallback_result "T" (clean_snippet "snip") ∧
    (resolveHit (fun _ => .resp 200 ⟨none, none⟩) ⟨"T", "snip"⟩).content = "" ∧
    clean_snippet "snip" = "snip" :=
  ⟨by decide, by decide, by decide⟩

/-- C3 (amended). Resolution never raises and is characterized by: on a
summary-fetch exception (timeout, transport, JSON error) or on a non-200
status, the result is the fallback built from the cleaned snippet with the
deterministically derived URL; on a 200 response the summary dictionary is
kept as-is, with `""` standing in for a missing `extract` or missing
`content_urls` page — not the snippet fallback. -/
theorem resolveHit_characterization (fetch : String → SummaryOutcome)
    (item : WikiSearchItem) :
    (∀ m, fetch item.title = .exn m →
      resolveHit fetch item =
        create_fallback_result item.title (clean_snippet item.snippet)) ∧
    (∀ s d, fetch item.title = .resp s d → s ≠ 200 →
      resolveHit fetch item =
        create_fallback_result item.title (clean_snippet item.snippet)) ∧
    (∀ d, fetch item.title = .resp 200 d →
      resolveHit fetch item =
        { title := item.title
          content := d.extract.getD ""
          url := d.pageUrl.getD "" }) := by
  refine ⟨?_, ?_, ?_⟩
  · intro m hm
    simp [resolveHit, get_article_summary, hm]
  · intro s d hd hs
    simp [resolveHit, get_article_summary, hd, hs]
  · intro d hd
    simp [resolveHit, get_article_summary, hd]

/-- C3 witness: the three branches at concrete fetch outcomes — exception,
404 status, and a full 200 summary. -/
theorem resolveHit_characterization_witness :
    resolveHit (fun _ => .exn "timeout") ⟨"A B", "s"⟩ =
      create_fallback_result "A B" (clean_snippet "s") ∧
    resolveHit (fun _ => .resp 404 ⟨none, none⟩) ⟨"T", "sn"⟩ =
      create_fallback_result "T" (clean_snippet "sn") ∧
    resolveHit (fun _ => .resp 200 ⟨some "x", some "u"⟩) ⟨"T", "s"⟩ =
      { title := "T", content := (some "x").getD "", url := (some "u").getD "" } :=
  ⟨(resolveHit_characterization (fun _ => .exn "timeout") ⟨"A B", "s"⟩).1
      "timeout" rfl,
   (resolveHit_characterization (fun _ => .resp 404 ⟨none, none⟩) ⟨"T", "sn"⟩).2.1
      404 ⟨none, none⟩ rfl (by decide),
   (resolveHit_characterization (fun _ => .resp 200 ⟨some "x", some "u"⟩)
      ⟨"T", "s"⟩).2.2 ⟨some "x", some "u"⟩ rfl⟩

/-- C4 counterexample: a summary-resolved article can carry an empty URL —
a 200 response with an `extract` but no `content_urls` yields `url = ""`,
and the endpoint then drops it from `wikipedia_sources`, so one resolved
article contributes zero source URLs. -/
theorem empty_summary_url_cex :
    (resolveHit (fun _ => .resp 200 ⟨some "x", none⟩) ⟨"T", "s"⟩).url = "" ∧
    wikiResultsOf emptyUrlEnv wikiReq = [⟨"T", "x", ""⟩] ∧
    (chat_endpoint emptyUrlEnv wikiReq).result =
      .ok ⟨"Quantum computing is...", "hello", [], 42⟩ :=
  ⟨by decide, by decide, rfl⟩

/-- C4 (amended). Every fallback-resolved article has a non-empty
`sourceUrl` (derived from the title); summary-resolved articles may have an
empty URL when the 200 response lacks `content_urls.desktop.page`; and on a
successful request the result's `wikipedia_sources` is exactly the list of
non-empty URLs of the resolved articles, in order. -/
theorem fallback_url_nonempty_sources_filtered :
    (∀ title snippet, (create_fallback_result title snippet).url ≠ "") ∧
    (∀ (env : Env) (req : QueryRequest) (resp : QueryResponse),
      (chat_endpoint env req).result = .ok resp →
      resp.wikipedia_sources =
        ((wikiResultsOf env req).map WikiResult.url).filter (fun u => u != "")) := by
  constructor
  · intro title snippet h
    have hlen := congrArg String.length h
    rw [create_fallback_result] at hlen
    simp [String.length_append] at hlen
    exact absurd hlen.1 (by decide)
  · intro env req resp hresp
    rcases hgen : env.genOracle
        (prepare_message req.query (contextOf env req))
        req.max_tokens req.temperature with msg | txt <;>
      simp [chat_endpoint, generate_response, hgen, Option.getD] at hresp
    rw [← hresp]
    rfl

/-- C4 witness: the filtered-sources equation at a concrete successful
request whose single resolved article has an empty URL. -/
theorem fallback_url_nonempty_sources_filtered_witness :
    (⟨"Quantum computing is...", "hello", [], 42⟩ : QueryResponse).wikipedia_sources =
      ((wikiResultsOf emptyUrlEnv wikiReq).map WikiResult.url).filter
        (fun u => u != "") :=
  fallback_url_nonempty_sources_filtered.2 emptyUrlEnv wikiReq
    ⟨"Quantum computing is...", "hello", [], 42⟩ rfl

/-- C5. A request whose `max_tokens` lies outside `[1, 2000]`, or whose
`temperature` lies outside `[0, 1]`, or whose query is empty or
whitespace-only (trim is `""`) or longer than 2000 characters, is rejected
as a validation failure: the handler body never runs, so no search call, no
generation call, and no database write happens. -/
theorem invalid_request_rejected_no_calls (env : Env) (raw : RawRequest)
    (h : ¬ (1 ≤ raw.max_tokens ∧ raw.max_tokens ≤ 2000)
       ∨ ¬ (0 ≤ raw.temperature ∧ raw.temperature ≤ 1)
       ∨ raw.query.trim = ""
       ∨ 2000 < raw.query.length) :
    (∃ e, (handleChat env raw).result = .error ("Validation error: " ++ e)) ∧
    (handleChat env raw).calls = [] ∧
    (handleChat env raw).saved = [] := by
  unfold handleChat validateQueryRequest
  split_ifs with h1 h2 h3 h4 h5 <;>
    try exact ⟨⟨_, rfl⟩, rfl, rfl⟩
  rcases h with h | h | h | h
  · exact absurd h3 h
  · exact absurd h4 h
  · exact absurd h h5
  · exact absurd h h2

/-- C5 witness: a request with `max_tokens = 0` is rejected with no external
calls and nothing saved, in an environment where every call would succeed. -/
theorem invalid_request_rejected_no_calls_witness :
    (handleChat okEnv ⟨"q", 0, 1, true⟩).calls = [] ∧
    (handleChat okEnv ⟨"q", 0, 1, true⟩).saved = [] :=
  ⟨(invalid_request_rejected_no_calls okEnv ⟨"q", 0, 1, true⟩
      (Or.inl (by decide))).2.1,
   (invalid_request_rejected_no_calls okEnv ⟨"q", 0, 1, true⟩
      (Or.inl (by decide))).2.2⟩

/-- C6. The database-save outcome never changes what the caller sees: the
HTTP result and the external-call trace are identical whether the commit
succeeds or raises, and whenever generation succeeds the result is the
already-built response object — the save outcome only decides whether a row
was persisted. -/
theorem db_failure_result_unchanged (env : Env) (req : QueryRequest) :
    (chat_endpoint { env with dbSaveOk := false } req).result =
      (chat_endpoint { env with dbSaveOk := true } req).result ∧
    (chat_endpoint { env with dbSaveOk := false } req).calls =
      (chat_endpoint { env with dbSaveOk := true } req).calls ∧
    (chat_endpoint { env with dbSaveOk := false } req).saved = [] ∧
    (∀ t, env.genOracle (genMessageOf env req) req.max_tokens req.temperature
        = .ok t →
      (chat_endpoint { env with dbSaveOk := false } req).result =
        .ok { response := t
              query := req.query
              wikipedia_sources := sourcesOf env req
              timestamp := env.now }) := by
  rcases hgen : env.genOracle (genMessageOf env req)
      req.max_tokens req.temperature with msg | txt
  · have e1 := chat_endpoint_gen_exn { env with dbSaveOk := false } req msg hgen
    have e2 := chat_endpoint_gen_exn { env with dbSaveOk := true } req msg hgen
    refine ⟨by rw [e1, e2], by rw [e1, e2]; exact rfl, by rw [e1], ?_⟩
    intro t ht
    exact GenOutcome.noConfusion ht
  · have e1 := chat_endpoint_gen_ok { env with dbSaveOk := false } req txt hgen
    have e2 := chat_endpoint_gen_ok { env with dbSaveOk := true } req txt hgen
    refine ⟨by rw [e1, e2]; exact rfl, by rw [e1, e2]; exact rfl,
      by rw [e1]; exact rfl, ?_⟩
    intro t ht
    cases ht
    rw [e1]
    exact rfl

/-- C6 witness: at a concrete request, the result is the same response
object under a failing and a succeeding commit. -/
theorem db_failure_result_unchanged_witness :
    (chat_endpoint { okEnv with dbSaveOk := false } wikiReq).result =
      (chat_endpoint { okEnv with dbSaveOk := true } wikiReq).result ∧
    (chat_endpoint { okEnv with dbSaveOk := false } wikiReq).result =
      .ok { response := "Quantum computing is..."
            query := wikiReq.query
            wikipedia_sources := sourcesOf okEnv wikiReq
            timestamp := okEnv.now } :=
  ⟨(db_failure_result_unchanged okEnv wikiReq).1,
   (db_failure_result_unchanged okEnv wikiReq).2.2.2
      "Quantum computing is..." rfl⟩

/-- C7. For every query and limit at least 1, a failed search — a raised
exception (timeout, non-2xx via `raise_for_status`, JSON decoding error) or
a payload without the expected `query.search` fields — makes
`search_wikipedia` return the empty list instead of raising. -/
theorem search_failure_degrades_to_empty (fetch : String → SummaryOutcome)
    (searchOracle : String → Nat → SearchOutcome) (query : String)
    (limit : Nat) (hlim : 1 ≤ limit) :
    (∀ m, searchOracle query limit = .exn m →
      search_wikipedia fetch searchOracle query limit = []) ∧
    (∀ d, searchOracle query limit = .ok d → d.searchList = none →
      search_wikipedia fetch searchOracle query limit = []) := by
  constructor
  · intro m hm
    simp [search_wikipedia, perform_search, hm]
  · intro d hd hnone
    simp [search_wikipedia, perform_search, hd, hnone]

/-- C7 witness: a raised search request and a payload missing the
`query.search` fields both yield the empty result list. -/
theorem search_failure_degrades_to_empty_witness :
    search_wikipedia (fun _ => .exn "x") (fun _ _ => .exn "conn reset") "q" 2
      = [] ∧
    search_wikipedia (fun _ => .exn "x") (fun _ _ => .ok ⟨none⟩) "q" 2 = [] :=
  ⟨(search_failure_degrades_to_empty (fun _ => .exn "x")
      (fun _ _ => .exn "conn reset") "q" 2 (by decide)).1 "conn reset" rfl,
   (search_failure_degrades_to_empty (fun _ => .exn "x")
      (fun _ _ => .ok ⟨none⟩) "q" 2 (by decide)).2 ⟨none⟩ rfl rfl⟩

/-- C8 counterexample: a generation call that succeeds with empty text is
NOT treated as a failure — `generate_response` returns it as a success and
the endpoint returns a normal response whose text is `""`. -/
theorem empty_generation_text_success_cex :
    generate_response (fun _ _ _ => .ok "") "q" (some 10) (some 1) none =
      .ok "" ∧
    (chat_endpoint emptyGenEnv noWikiReq).result = .ok ⟨"", "hello", [], 42⟩ :=
  ⟨rfl, rfl⟩

/-- C8 (amended). An exception raised by the generation provider call
(authentication, network, malformed response) is fatal: the request fails
with the distinguishable detail `"Error processing request: ..."`, no
response object is returned, nothing is persisted, and exactly one
generation call was made (no retry); a call that succeeds — even with empty
text — yields a normal response carrying that text verbatim. -/
theorem generation_exception_fatal (env : Env) (req : QueryRequest) :
    (∀ m, env.genOracle (genMessageOf env req) req.max_tokens req.temperature
        = .exn m →
      (chat_endpoint env req).result =
        .error ("Error processing request: " ++ m) ∧
      ((chat_endpoint env req).calls.countP fun c =>
        match c with | .generate _ _ _ => true | _ => false) = 1 ∧
      (chat_endpoint env req).saved = []) ∧
    (∀ t, env.genOracle (genMessageOf env req) req.max_tokens req.temperature
        = .ok t →
      (chat_endpoint env req).result =
        .ok ⟨t, req.query, sourcesOf env req, env.now⟩) := by
  constructor
  · intro m hm
    rw [chat_endpoint_gen_exn env req m hm]
    refine ⟨rfl, ?_, rfl⟩
    cases hw : req.use_wikipedia <;> simp [List.countP, List.countP.go]
  · intro t ht
    rw [chat_endpoint_gen_ok env req t ht]

/-- C8 witness: at an environment whose generation call raises, the request
fails with the distinguishable detail, one generation call, nothing saved;
at one that succeeds, the text is returned verbatim. -/
theorem generation_exception_fatal_witness :
    (chat_endpoint failGenEnv noWikiReq).result =
      .error ("Error processing request: " ++ "auth error") ∧
    (chat_endpoint failGenEnv noWikiReq).saved = [] ∧
    (chat_endpoint okEnv noWikiReq).result =
      .ok ⟨"Quantum computing is...", noWikiReq.query,
           sourcesOf okEnv noWikiReq, okEnv.now⟩ :=
  ⟨((generation_exception_fatal failGenEnv noWikiReq).1 "auth error" rfl).1,
   ((generation_exception_fatal failGenEnv noWikiReq).1 "auth error" rfl).2.2,
   (generation_exception_fatal okEnv noWikiReq).2 "Quantum computing is..." rfl⟩

/-- C9. Prompt building: with an absent or empty context the prompt is the
raw query unchanged; with a non-empty context it is the one fixed template
that instructs the generator to use the context and to acknowledge external
reference material, embeds the context under the `Wikipedia Context:` label
and the literal user question under the `User Question:` label. -/
theorem prompt_template_fixed_shape (query ctx : String) (h : ctx ≠ "") :
    prepare_message query none = query ∧
    prepare_message query (some "") = query ∧
    prepare_message query (some ctx) =
      "Based on the following Wikipedia information, please answer the user\x27s question comprehensively and mention that you\x27re using Wikipedia sources:\n\nWikipedia Context:\n"
        ++ ctx ++ "\n\nUser Question: " ++ query
        ++ "\n\nPlease provide a detailed answer using the Wikipedia information provided above. Start your response by acknowledging that you found relevant information from Wikipedia." := by
  refine ⟨rfl, rfl, ?_⟩
  simp [prepare_message, h]

/-- C9 witness: the template at a concrete query and context. -/
theorem prompt_template_fixed_shape_witness :
    prepare_message "Q" none = "Q" ∧
    prepare_message "Q" (some "CTX") =
      "Based on the following Wikipedia information, please answer the user\x27s question comprehensively and mention that you\x27re using Wikipedia sources:\n\nWikipedia Context:\n"
        ++ "CTX" ++ "\n\nUser Question: " ++ "Q"
        ++ "\n\nPlease provide a detailed answer using the Wikipedia information provided above. Start your response by acknowledging that you found relevant information from Wikipedia." :=
  ⟨(prompt_template_fixed_shape "Q" "CTX" (by decide)).1,
   (prompt_template_fixed_shape "Q" "CTX" (by decide)).2.2⟩

/-- C10. The handler intends the claimed behavior — its `except` branch
assigns `"unknown"` and `f"error: ..."` and then builds the response with
`status="healthy"` — but the build defeats it: on a failed probe the string
`"unknown"` is passed to the `int`-declared `total_conversations` field, so
constructing `HealthCheckResponse` raises a `ValidationError` and the
endpoint returns a 500 with no `status = "healthy"` body at all; only on a
successful probe is the healthy body returned. -/
theorem health_probe_failure_raises_validation_error :
    health_check (.exn "connection refused") =
      .error ("total_conversations: Input should be a valid integer, got "
        ++ "unknown") ∧
    health_check (.ok 5) =
      .ok { status := "healthy"
            service := "cohere-chat-api-with-wikipedia-postgresql"
            total_conversations := 5
            database_status := "connected"
            features := healthFeatures } :=
  ⟨rfl, rfl⟩

end CohereTHA
